import Mathlib

/-!
# Verification of the hand-gesture classifier and action dispatcher

Shallow embedding of `hand_gesture_gui.py`: the gesture classification
function `GestureDetector.classify` and the per-frame dispatch logic of
`GestureApp._loop` / `GestureApp._throttle`.  Landmark coordinates and
timestamps are modelled as rationals; Python `int()` truncation toward
zero is modelled by `pyInt`.  Distance comparisons `math.hypot(dx,dy) < t`
against a positive threshold `t` are embedded as `dx^2 + dy^2 < t^2`,
which is equivalent since both sides are nonnegative.
-/

unseal Rat.mul Rat.add Rat.sub Rat.inv

/-- A single normalized 2-D hand landmark (MediaPipe gives 21 per hand). -/
structure Landmark where
  x : ℚ
  y : ℚ
deriving DecidableEq

/-- `PINCH_THRESHOLD = 0.04`: thumb-index distance for the left click. -/
def PINCH_THRESHOLD : ℚ := 4/100

/-- `DIST_OK_THRESHOLD = 0.035`: thumb-index distance for the OK sign. -/
def DIST_OK_THRESHOLD : ℚ := 35/1000

/-- `SMOOTHING = 0.25`: mouse smoothing factor. -/
def SMOOTHING : ℚ := 25/100

/-- `SCROLL_SENSITIVITY = 900`. -/
def SCROLL_SENSITIVITY : ℚ := 900

/-- `SCROLL_MIN_DELTA = 0.004`. -/
def SCROLL_MIN_DELTA : ℚ := 4/1000

/-- `COOLDOWN_SHORT = 0.35` seconds (volume). -/
def COOLDOWN_SHORT : ℚ := 35/100

/-- `COOLDOWN_MED = 0.9` seconds (clicks / keyboard / mute). -/
def COOLDOWN_MED : ℚ := 9/10

/-- `COOLDOWN_SCROLL = 0.06` seconds between scroll events. -/
def COOLDOWN_SCROLL : ℚ := 6/100

/-- `GestureDetector.finger_up`: a finger is up when its tip is above
(smaller `y` than) its PIP joint. -/
def finger_up (tip pip : Landmark) : Bool :=
  decide (tip.y < pip.y)

/-- Squared euclidean distance between two landmarks. -/
def euclideanSq (p1 p2 : Landmark) : ℚ :=
  (p1.x - p2.x) * (p1.x - p2.x) + (p1.y - p2.y) * (p1.y - p2.y)

/-- `GestureDetector.euclidean p1 p2 < t` for a positive threshold `t`,
embedded without square roots: `hypot(dx,dy) < t ↔ dx*dx+dy*dy < t*t`. -/
def distLt (p1 p2 : Landmark) (t : ℚ) : Bool :=
  decide (euclideanSq p1 p2 < t * t)

/-- The gesture labels returned by `GestureDetector.classify`. -/
inductive Gesture where
  | OPEN_PALM
  | OK_SIGN
  | PEACE
  | ROCK
  | L_SIGN
  | THUMBS_UP
  | FIST
  | UNKNOWN
deriving DecidableEq

/-- The body of `GestureDetector.classify` once the ten landmarks used by
the rules have been read from the list. -/
def classifyCore (thumb_tip thumb_ip index_tip index_pip middle_tip middle_pip
    ring_tip ring_pip pinky_tip pinky_pip : Landmark) : Gesture :=
  let thumb_up : Bool := decide (thumb_tip.x < thumb_ip.x)
  let index_up := finger_up index_tip index_pip
  let middle_up := finger_up middle_tip middle_pip
  let ring_up := finger_up ring_tip ring_pip
  let pinky_up := finger_up pinky_tip pinky_pip
  let fingers_up_count : ℕ :=
    (if index_up then 1 else 0) + (if middle_up then 1 else 0) +
    (if ring_up then 1 else 0) + (if pinky_up then 1 else 0)
  if fingers_up_count == 4 && thumb_up then Gesture.OPEN_PALM
  else if distLt thumb_tip index_tip DIST_OK_THRESHOLD then Gesture.OK_SIGN
  else if index_up && middle_up && !ring_up && !pinky_up then Gesture.PEACE
  else if index_up && !middle_up && !ring_up && pinky_up then Gesture.ROCK
  else if thumb_up && index_up && !middle_up && !ring_up && !pinky_up then Gesture.L_SIGN
  else if thumb_up && !index_up && !middle_up && !ring_up && !pinky_up then Gesture.THUMBS_UP
  else if fingers_up_count == 0 && !thumb_up then Gesture.FIST
  else Gesture.UNKNOWN

/-- `GestureDetector.classify lm`: reads `lm[4], lm[3], lm[8], lm[6],
lm[12], lm[10], lm[16], lm[14], lm[20], lm[18]`; an out-of-range index is
a Python `IndexError`, modelled as `none`. -/
def classify (lm : List Landmark) : Option Gesture := do
  let thumb_tip ← lm.get? 4
  let thumb_ip ← lm.get? 3
  let index_tip ← lm.get? 8
  let index_pip ← lm.get? 6
  let middle_tip ← lm.get? 12
  let middle_pip ← lm.get? 10
  let ring_tip ← lm.get? 16
  let ring_pip ← lm.get? 14
  let pinky_tip ← lm.get? 20
  let pinky_pip ← lm.get? 18
  pure (classifyCore thumb_tip thumb_ip index_tip index_pip middle_tip middle_pip
    ring_tip ring_pip pinky_tip pinky_pip)

/-- Python `int()` applied to an exact rational: truncation toward zero
(the truncated quotient of the reduced numerator and denominator). -/
def pyInt (q : ℚ) : ℤ :=
  q.num.tdiv q.den

/-- One mouse-smoothing update of a single screen coordinate:
`int(prev + (target - prev) * SMOOTHING)` with integer `prev`, `target`. -/
def pstep (p t : ℤ) : ℤ :=
  pyInt ((p : ℚ) + ((t : ℚ) - (p : ℚ)) * SMOOTHING)

/-- The side-effecting intents the dispatcher emits toward collaborators
(`pyautogui` and the volume controller). -/
inductive Intent where
  | pointerMove (x y : ℤ)
  | leftClick
  | rightClick
  | volumeUp
  | volumeDown
  | muteToggle
  | hotkeyCopy
  | hotkeyPaste
  | hotkeySave
  | scroll (amount : ℤ)
deriving DecidableEq

/-- The keys of the `last_times` dict (the action cooldown categories). -/
inductive ThrottleKey where
  | volume
  | mute
  | click
  | keyboard
  | scroll
deriving DecidableEq

/-- The `last_times` dict: one last-fire timestamp per category. -/
structure LastTimes where
  volume : ℚ
  mute : ℚ
  click : ℚ
  keyboard : ℚ
  scroll : ℚ
deriving DecidableEq

/-- Read `last_times[key]`. -/
def getLast (lt : LastTimes) : ThrottleKey → ℚ
  | ThrottleKey.volume => lt.volume
  | ThrottleKey.mute => lt.mute
  | ThrottleKey.click => lt.click
  | ThrottleKey.keyboard => lt.keyboard
  | ThrottleKey.scroll => lt.scroll

/-- Write `last_times[key] = v`. -/
def setLast (lt : LastTimes) (k : ThrottleKey) (v : ℚ) : LastTimes :=
  match k with
  | ThrottleKey.volume => { lt with volume := v }
  | ThrottleKey.mute => { lt with mute := v }
  | ThrottleKey.click => { lt with click := v }
  | ThrottleKey.keyboard => { lt with keyboard := v }
  | ThrottleKey.scroll => { lt with scroll := v }

/-- `GestureApp._throttle`: fires iff `now - last_times[key] >= cooldown`;
on firing `last_times[key] := now`, otherwise the dict is unchanged. -/
def throttle (lt : LastTimes) (key : ThrottleKey) (cooldown now : ℚ) :
    Bool × LastTimes :=
  if cooldown ≤ now - getLast lt key then (true, setLast lt key now)
  else (false, lt)

/-- The cooldown duration the code uses for each category. -/
def cooldownOf : ThrottleKey → ℚ
  | ThrottleKey.volume => COOLDOWN_SHORT
  | ThrottleKey.mute => COOLDOWN_MED
  | ThrottleKey.click => COOLDOWN_MED
  | ThrottleKey.keyboard => COOLDOWN_MED
  | ThrottleKey.scroll => COOLDOWN_SCROLL

/-- Which cooldown category an intent belongs to (`none` for pointer
movement, which is not throttled). -/
def intentCategory : Intent → Option ThrottleKey
  | Intent.pointerMove _ _ => none
  | Intent.leftClick => some ThrottleKey.click
  | Intent.rightClick => some ThrottleKey.click
  | Intent.volumeUp => some ThrottleKey.volume
  | Intent.volumeDown => some ThrottleKey.volume
  | Intent.muteToggle => some ThrottleKey.mute
  | Intent.hotkeyCopy => some ThrottleKey.keyboard
  | Intent.hotkeyPaste => some ThrottleKey.keyboard
  | Intent.hotkeySave => some ThrottleKey.keyboard
  | Intent.scroll _ => some ThrottleKey.scroll

/-- A guarded throttled action as the loop writes it:
`if cond and self._throttle(key, cooldown): <emit intent>`.  The throttle
is consulted (and its clock updated) only when `cond` holds. -/
def gated (cond : Bool) (k : ThrottleKey) (cd : ℚ) (i : Intent)
    (lt : LastTimes) (now : ℚ) : Option Intent × LastTimes :=
  if cond then
    let r := throttle lt k cd now
    (if r.1 then some i else none, r.2)
  else (none, lt)

/-- The hotkey `_perform_keyboard_shortcut` sends for each gesture. -/
def hotkeyFor : Gesture → Option Intent
  | Gesture.OK_SIGN => some Intent.hotkeyCopy
  | Gesture.L_SIGN => some Intent.hotkeyPaste
  | Gesture.PEACE => some Intent.hotkeySave
  | _ => none

/-- `GestureApp._perform_keyboard_shortcut`: consumes the shared keyboard
throttle first and only then dispatches on the gesture. -/
def perform_keyboard_shortcut (g : Gesture) (lt : LastTimes) (now : ℚ) :
    Option Intent × LastTimes :=
  let r := throttle lt ThrottleKey.keyboard COOLDOWN_MED now
  (if r.1 then hotkeyFor g else none, r.2)

/-- The keyboard-shortcut call site:
`if gesture_text in ("OK_SIGN", "L_SIGN", "PEACE"): _perform_keyboard_shortcut(...)`. -/
def kbStep (g : Gesture) (lt : LastTimes) (now : ℚ) : Option Intent × LastTimes :=
  if g == Gesture.OK_SIGN || g == Gesture.L_SIGN || g == Gesture.PEACE then
    perform_keyboard_shortcut g lt now
  else (none, lt)

/-- The scrolling block of `_loop`.  Arguments: current gesture, current
`scroll_mode` and `last_index_y`, the index-tip `y`, the `last_times`
dict and the frame time.  Returns the emitted scroll intent (if any) and
the new `scroll_mode`, `last_index_y` and `last_times`.  `none` models the
Python `TypeError` that would occur if `scroll_mode` were set while
`last_index_y` is `None` (unreachable from the initial state). -/
def scrollStep (g : Gesture) (scroll_mode : Bool) (last_index_y : Option ℚ)
    (iy : ℚ) (lt : LastTimes) (now : ℚ) :
    Option (Option Intent × Bool × Option ℚ × LastTimes) :=
  if g == Gesture.OPEN_PALM then
    if !scroll_mode then
      some (none, true, some iy, lt)
    else
      match last_index_y with
      | none => none
      | some ly =>
        let dy := ly - iy
        let r := if SCROLL_MIN_DELTA < |dy| then
            throttle lt ThrottleKey.scroll COOLDOWN_SCROLL now
          else (false, lt)
        let amount := pyInt (dy * SCROLL_SENSITIVITY)
        let out := if r.1 && !(amount == 0) then some (Intent.scroll amount) else none
        some (out, true, some (ly * (85/100) + iy * (15/100)), r.2)
  else
    if scroll_mode then some (none, false, none, lt)
    else some (none, false, last_index_y, lt)

/-- The dispatcher state owned by `GestureApp` and mutated by `_loop`:
smoothed mouse position, cooldown clocks, scroll sub-state. -/
structure AppState where
  prev_mouse : Option (ℤ × ℤ)
  last_times : LastTimes
  scroll_mode : Bool
  last_index_y : Option ℚ
deriving DecidableEq

/-- The state at the start of a session: clocks at `0.0`, no smoothed
mouse position, scroll mode off. -/
def initState : AppState :=
  { prev_mouse := none
    last_times := { volume := 0, mute := 0, click := 0, keyboard := 0, scroll := 0 }
    scroll_mode := false
    last_index_y := none }

/-- One observed-hand frame of `_loop`, after `classify` returned `g` and
`index_tip = lm[8]`, `thumb_tip = lm[4]` were read: mouse move with
smoothing, pinch left click, L-sign right click, volume up/down, mute,
keyboard shortcut, scroll block, in the code's order. -/
def stepHand (s : AppState) (g : Gesture) (index_tip thumb_tip : Landmark)
    (screen_w screen_h : ℕ) (now : ℚ) : Option (AppState × List Intent) :=
  let target_x := pyInt (index_tip.x * screen_w)
  let target_y := pyInt (index_tip.y * screen_h)
  let p := s.prev_mouse.getD (target_x, target_y)
  let smooth_x := pstep p.1 target_x
  let smooth_y := pstep p.2 target_y
  let r1 := gated (distLt thumb_tip index_tip PINCH_THRESHOLD)
    ThrottleKey.click COOLDOWN_MED Intent.leftClick s.last_times now
  let r2 := gated (g == Gesture.L_SIGN)
    ThrottleKey.click COOLDOWN_MED Intent.rightClick r1.2 now
  let r3 := gated (g == Gesture.THUMBS_UP)
    ThrottleKey.volume COOLDOWN_SHORT Intent.volumeUp r2.2 now
  let r4 := gated (g == Gesture.FIST)
    ThrottleKey.volume COOLDOWN_SHORT Intent.volumeDown r3.2 now
  let r5 := gated (g == Gesture.ROCK)
    ThrottleKey.mute COOLDOWN_MED Intent.muteToggle r4.2 now
  let r6 := kbStep g r5.2 now
  match scrollStep g s.scroll_mode s.last_index_y index_tip.y r6.2 now with
  | none => none
  | some (o7, sm, liy, l7) =>
    some ({ prev_mouse := some (smooth_x, smooth_y)
            last_times := l7
            scroll_mode := sm
            last_index_y := liy },
      [Intent.pointerMove smooth_x smooth_y] ++ r1.1.toList ++ r2.1.toList
        ++ r3.1.toList ++ r4.1.toList ++ r5.1.toList ++ r6.1.toList ++ o7.toList)

/-- One frame of `_loop`.  `obs = none` is the no-hand case: the whole
landmark block is skipped, so nothing is emitted and the state (scroll
sub-state included) is untouched.  When a hand is observed, `classify`
runs first (`none` models its `IndexError` on a malformed landmark list),
then the per-action blocks run. -/
def step (s : AppState) (obs : Option (List Landmark)) (screen_w screen_h : ℕ)
    (now : ℚ) : Option (AppState × List Intent) :=
  match obs with
  | none => some (s, [])
  | some lm =>
    match classify lm, lm.get? 8, lm.get? 4 with
    | some g, some index_tip, some thumb_tip =>
      stepHand s g index_tip thumb_tip screen_w screen_h now
    | _, _, _ => none

/-- Run `_loop` over a list of frames `(observation, timestamp)`,
collecting each frame's time and emitted intents. -/
def run (s : AppState) (frames : List (Option (List Landmark) × ℚ))
    (screen_w screen_h : ℕ) :
    Option (AppState × List (ℚ × List Intent)) :=
  match frames with
  | [] => some (s, [])
  | (obs, now) :: rest => do
    let r ← step s obs screen_w screen_h now
    let rr ← run r.1 rest screen_w screen_h
    pure (rr.1, (now, r.2) :: rr.2)

/-- Does the intent list of one frame contain an intent of category `c`? -/
def emitsCat (c : ThrottleKey) (out : List Intent) : Bool :=
  out.any (fun i => intentCategory i == some c)

/-- The timestamps of the frames that emitted an intent of category `c`. -/
def emitTimes (c : ThrottleKey) (frames : List (ℚ × List Intent)) : List ℚ :=
  (frames.filter (fun p => emitsCat c p.2)).map Prod.fst

/-- Does the intent list of one frame contain a (left or right) click? -/
def emitsClick (out : List Intent) : Bool :=
  out.any (fun i => i == Intent.leftClick || i == Intent.rightClick)

/-- The timestamps of the frames that emitted a left or right click. -/
def clickTimes (frames : List (ℚ × List Intent)) : List ℚ :=
  (frames.filter (fun p => emitsClick p.2)).map Prod.fst

/-- The invariant one pipeline stage preserves for category `c`: if the
stage emits an intent of category `c` its cooldown was satisfied and its
clock is set to `now`; and the stage either leaves the clock of `c`
untouched or sets it to `now` with the cooldown satisfied. -/
def LinkOk (c : ThrottleKey) (l l' : LastTimes) (out : List Intent) (now : ℚ) :
    Prop :=
  (emitsCat c out = true →
    cooldownOf c ≤ now - getLast l c ∧ getLast l' c = now) ∧
  (getLast l' c = getLast l c ∨
    (getLast l' c = now ∧ cooldownOf c ≤ now - getLast l c))

/-- The number of up fingers among index, middle, ring, pinky, written
from the spec's wording (tip above proximal joint). -/
def upCountSpec (index_tip index_pip middle_tip middle_pip
    ring_tip ring_pip pinky_tip pinky_pip : Landmark) : ℕ :=
  (if index_tip.y < index_pip.y then 1 else 0) +
  (if middle_tip.y < middle_pip.y then 1 else 0) +
  (if ring_tip.y < ring_pip.y then 1 else 0) +
  (if pinky_tip.y < pinky_pip.y then 1 else 0)

/-- The priority-ordered rule list exactly as the specification words it
(first match wins): OpenPalm, OkSign, Peace, Rock, LSign, ThumbsUp, Fist,
otherwise Unknown.  Written from the spec to be compared with
`classifyCore`, which is written from the code. -/
def prioritySpecGesture (thumb_tip thumb_ip index_tip index_pip
    middle_tip middle_pip ring_tip ring_pip pinky_tip pinky_pip : Landmark) :
    Gesture :=
  if upCountSpec index_tip index_pip middle_tip middle_pip ring_tip ring_pip
      pinky_tip pinky_pip = 4 ∧ thumb_tip.x < thumb_ip.x then
    Gesture.OPEN_PALM
  else if euclideanSq thumb_tip index_tip <
      DIST_OK_THRESHOLD * DIST_OK_THRESHOLD then
    Gesture.OK_SIGN
  else if index_tip.y < index_pip.y ∧ middle_tip.y < middle_pip.y ∧
      ¬(ring_tip.y < ring_pip.y) ∧ ¬(pinky_tip.y < pinky_pip.y) then
    Gesture.PEACE
  else if index_tip.y < index_pip.y ∧ ¬(middle_tip.y < middle_pip.y) ∧
      ¬(ring_tip.y < ring_pip.y) ∧ pinky_tip.y < pinky_pip.y then
    Gesture.ROCK
  else if thumb_tip.x < thumb_ip.x ∧ index_tip.y < index_pip.y ∧
      ¬(middle_tip.y < middle_pip.y) ∧ ¬(ring_tip.y < ring_pip.y) ∧
      ¬(pinky_tip.y < pinky_pip.y) then
    Gesture.L_SIGN
  else if thumb_tip.x < thumb_ip.x ∧ ¬(index_tip.y < index_pip.y) ∧
      ¬(middle_tip.y < middle_pip.y) ∧ ¬(ring_tip.y < ring_pip.y) ∧
      ¬(pinky_tip.y < pinky_pip.y) then
    Gesture.THUMBS_UP
  else if upCountSpec index_tip index_pip middle_tip middle_pip ring_tip
      ring_pip pinky_tip pinky_pip = 0 ∧ ¬(thumb_tip.x < thumb_ip.x) then
    Gesture.FIST
  else
    Gesture.UNKNOWN

/-- A concrete open-palm landmark set: all four fingers up, thumb out. -/
def openPalmLm : List Landmark :=
  [⟨0, 0⟩, ⟨0, 0⟩, ⟨0, 0⟩, ⟨6/10, 5/10⟩, ⟨5/10, 5/10⟩, ⟨0, 0⟩, ⟨5/10, 5/10⟩,
   ⟨0, 0⟩, ⟨5/10, 2/10⟩, ⟨0, 0⟩, ⟨55/100, 5/10⟩, ⟨0, 0⟩, ⟨55/100, 2/10⟩,
   ⟨0, 0⟩, ⟨6/10, 5/10⟩, ⟨0, 0⟩, ⟨6/10, 2/10⟩, ⟨0, 0⟩, ⟨65/100, 5/10⟩,
   ⟨0, 0⟩, ⟨65/100, 2/10⟩]

/-- A 21-landmark observation whose gesture is `OK_SIGN` with a pinch. -/
def pinchLm : List Landmark := List.replicate 21 ⟨0, 0⟩

/-- Two frames with a pinch, 0.05 s apart: the first fires a click (and
the Copy shortcut), the second is inside both cooldown windows. -/
def twoPinchTrace : List (Option (List Landmark) × ℚ) :=
  [(some pinchLm, 1), (some pinchLm, 105/100)]

/-- The state after `twoPinchTrace`. -/
def twoPinchSf : AppState :=
  { prev_mouse := some (0, 0)
    last_times := { volume := 0, mute := 0, click := 1, keyboard := 1, scroll := 0 }
    scroll_mode := false
    last_index_y := none }

/-- The per-frame emissions of `twoPinchTrace`. -/
def twoPinchOuts : List (ℚ × List Intent) :=
  [(1, [Intent.pointerMove 0 0, Intent.leftClick, Intent.hotkeyCopy]),
   (105/100, [Intent.pointerMove 0 0])]

/-- The state whose scroll machine is active: used to exhibit the NoHand
behavior of the loop. -/
def scrollingState : AppState :=
  { prev_mouse := none
    last_times := { volume := 0, mute := 0, click := 0, keyboard := 0, scroll := 0 }
    scroll_mode := true
    last_index_y := some (1/2) }

/-- An open-palm observation whose index tip sits `0.0041` below the
current scroll baseline of `0.5`. -/
def c6Lm : List Landmark :=
  [⟨0, 0⟩, ⟨0, 0⟩, ⟨0, 0⟩, ⟨2/10, 5/10⟩, ⟨1/10, 5/10⟩, ⟨0, 0⟩,
   ⟨5/10, 9/10⟩, ⟨0, 0⟩, ⟨5/10, 4959/10000⟩, ⟨0, 0⟩, ⟨6/10, 9/10⟩,
   ⟨0, 0⟩, ⟨6/10, 1/10⟩, ⟨0, 0⟩, ⟨7/10, 9/10⟩, ⟨0, 0⟩, ⟨7/10, 1/10⟩,
   ⟨0, 0⟩, ⟨8/10, 9/10⟩, ⟨0, 0⟩, ⟨8/10, 1/10⟩]

/-- A dispatcher state whose smoothed pointer sits at the origin. -/
def c7s : AppState :=
  { prev_mouse := some (0, 0)
    last_times := { volume := 0, mute := 0, click := 0, keyboard := 0, scroll := 0 }
    scroll_mode := false
    last_index_y := none }

/-- An observation whose index tip maps to screen position `(3, 0)`. -/
def c7Lm : List Landmark := List.replicate 21 ⟨3/100, 0⟩

/-- The state after `c7s` processes `c7Lm` at time `0`. -/
def c7sNext : AppState :=
  { prev_mouse := some (0, 0)
    last_times := { volume := 0, mute := 0, click := 0, keyboard := 0, scroll := 0 }
    scroll_mode := false
    last_index_y := none }

lemma getLast_setLast_same (lt : LastTimes) (k : ThrottleKey) (v : ℚ) :
    getLast (setLast lt k v) k = v := by
  cases k <;> rfl

lemma getLast_setLast_ne (lt : LastTimes) (k k' : ThrottleKey) (v : ℚ)
    (h : k' ≠ k) : getLast (setLast lt k v) k' = getLast lt k' := by
  cases k <;> cases k' <;> first | rfl | exact absurd rfl h

lemma cooldownOf_pos (k : ThrottleKey) : 0 < cooldownOf k := by
  cases k <;> norm_num [cooldownOf, COOLDOWN_SHORT, COOLDOWN_MED, COOLDOWN_SCROLL]

lemma throttle_fst_iff (lt : LastTimes) (key : ThrottleKey) (cd now : ℚ) :
    (throttle lt key cd now).1 = true ↔ cd ≤ now - getLast lt key := by
  unfold throttle
  split <;> simp [*]

lemma throttle_fired (lt : LastTimes) (key : ThrottleKey) (cd now : ℚ)
    (h : (throttle lt key cd now).1 = true) :
    getLast (throttle lt key cd now).2 key = now := by
  unfold throttle at h ⊢
  split at h
  · simp_all [getLast_setLast_same]
  · simp_all

lemma throttle_snd_ne (lt : LastTimes) (key : ThrottleKey) (cd now : ℚ)
    (k' : ThrottleKey) (h : k' ≠ key) :
    getLast (throttle lt key cd now).2 k' = getLast lt k' := by
  unfold throttle
  split
  · exact getLast_setLast_ne lt key k' now h
  · rfl

lemma throttle_not_fired (lt : LastTimes) (k : ThrottleKey) (cd now : ℚ)
    (h : (throttle lt k cd now).1 = false) :
    (throttle lt k cd now).2 = lt := by
  unfold throttle at h ⊢
  split at h
  next hcond => simp at h
  next hcond => rw [if_neg hcond]

lemma gated_cases (cond : Bool) (k : ThrottleKey) (cd : ℚ) (i : Intent)
    (lt : LastTimes) (now : ℚ) :
    (gated cond k cd i lt now = (some i, setLast lt k now) ∧ cd ≤ now - getLast lt k) ∨
    gated cond k cd i lt now = (none, lt) := by
  unfold gated throttle
  rcases cond with _ | _
  · right; rfl
  · by_cases h : cd ≤ now - getLast lt k
    · left; simp [h]
    · right; simp [h]

lemma gated_emit (cond : Bool) (k : ThrottleKey) (cd : ℚ) (i j : Intent)
    (lt : LastTimes) (now : ℚ)
    (h : (gated cond k cd i lt now).1 = some j) : j = i := by
  rcases gated_cases cond k cd i lt now with ⟨h1, _⟩ | h1 <;> rw [h1] at h <;>
    simp_all

lemma linkOk_of_no_emit (c : ThrottleKey) (l : LastTimes) (out : List Intent)
    (now : ℚ) (h : emitsCat c out = false) : LinkOk c l l out now := by
  constructor
  · intro he; rw [h] at he; cases he
  · left; rfl

lemma LinkOk.comp {c : ThrottleKey} {l0 l1 l2 : LastTimes}
    {o1 o2 : List Intent} {now : ℚ}
    (h1 : LinkOk c l0 l1 o1 now) (h2 : LinkOk c l1 l2 o2 now) :
    LinkOk c l0 l2 (o1 ++ o2) now := by
  have hpos := cooldownOf_pos c
  obtain ⟨e1, m1⟩ := h1
  obtain ⟨e2, m2⟩ := h2
  constructor
  · intro he
    have he' : emitsCat c o1 = true ∨ emitsCat c o2 = true := by
      simpa [emitsCat, List.any_append] using he
    rcases he' with he1 | he2
    · obtain ⟨hc1, hl1⟩ := e1 he1
      refine ⟨hc1, ?_⟩
      rcases m2 with hm | ⟨hm, _⟩
      · rw [hm, hl1]
      · exact hm
    · obtain ⟨hc2, hl2⟩ := e2 he2
      rcases m1 with hm | ⟨hm, hcm⟩
      · rw [hm] at hc2
        exact ⟨hc2, hl2⟩
      · rw [hm] at hc2
        linarith
  · rcases m2 with hm | ⟨hm, hcm⟩
    · rw [hm]; exact m1
    · right
      refine ⟨hm, ?_⟩
      rcases m1 with hm1 | ⟨hm1, hc1⟩
      · rw [hm1] at hcm; exact hcm
      · rw [hm1] at hcm; linarith

lemma emitsCat_singleton (c : ThrottleKey) (i : Intent) :
    emitsCat c [i] = (intentCategory i == some c) := by
  simp [emitsCat]

lemma linkOk_gated (c : ThrottleKey) (cond : Bool) (k : ThrottleKey) (i : Intent)
    (lt : LastTimes) (now : ℚ) (hcat : intentCategory i = some k) :
    LinkOk c lt (gated cond k (cooldownOf k) i lt now).2
      ((gated cond k (cooldownOf k) i lt now).1).toList now := by
  rcases gated_cases cond k (cooldownOf k) i lt now with ⟨h1, h2⟩ | h1 <;> rw [h1]
  · by_cases hc : c = k
    · subst hc
      constructor
      · intro _
        exact ⟨h2, getLast_setLast_same lt c now⟩
      · right; exact ⟨getLast_setLast_same lt c now, h2⟩
    · constructor
      · intro he
        rw [Option.toList_some, emitsCat_singleton, hcat] at he
        simp at he
        exact absurd he.symm hc
      · left; exact getLast_setLast_ne lt k c now hc
  · exact linkOk_of_no_emit c lt _ now rfl

lemma linkOk_kb (c : ThrottleKey) (g : Gesture) (lt : LastTimes) (now : ℚ) :
    LinkOk c lt (kbStep g lt now).2 ((kbStep g lt now).1).toList now := by
  simp only [kbStep, perform_keyboard_shortcut]
  by_cases hguard : (g == Gesture.OK_SIGN || g == Gesture.L_SIGN || g == Gesture.PEACE) = true
  · rw [if_pos hguard]
    by_cases hf : (throttle lt ThrottleKey.keyboard COOLDOWN_MED now).1 = true
    · rw [if_pos hf]
      have hcd : COOLDOWN_MED ≤ now - getLast lt ThrottleKey.keyboard :=
        (throttle_fst_iff lt ThrottleKey.keyboard COOLDOWN_MED now).mp hf
      by_cases hc : c = ThrottleKey.keyboard
      · subst hc
        constructor
        · intro _
          exact ⟨hcd, throttle_fired lt ThrottleKey.keyboard COOLDOWN_MED now hf⟩
        · right
          exact ⟨throttle_fired lt ThrottleKey.keyboard COOLDOWN_MED now hf, hcd⟩
      · constructor
        · intro he
          exfalso
          cases g <;> simp [hotkeyFor, emitsCat, intentCategory] at he <;>
            exact hc he.symm
        · left
          exact throttle_snd_ne lt ThrottleKey.keyboard COOLDOWN_MED now c hc
    · rw [if_neg hf]
      rw [throttle_not_fired lt ThrottleKey.keyboard COOLDOWN_MED now
        (Bool.not_eq_true _ ▸ eq_false_of_ne_true hf)]
      exact linkOk_of_no_emit c lt _ now rfl
  · rw [if_neg hguard]
    exact linkOk_of_no_emit c lt _ now rfl

lemma linkOk_scroll (c : ThrottleKey) (g : Gesture) (sm0 : Bool)
    (liy0 : Option ℚ) (iy : ℚ) (lt : LastTimes) (now : ℚ)
    (o7 : Option Intent) (sm : Bool) (liy : Option ℚ) (l7 : LastTimes)
    (heq : scrollStep g sm0 liy0 iy lt now = some (o7, sm, liy, l7)) :
    LinkOk c lt l7 o7.toList now := by
  unfold scrollStep at heq
  by_cases hg : (g == Gesture.OPEN_PALM) = true
  · rw [if_pos hg] at heq
    rcases sm0 with _ | _
    · rw [if_pos (show (!false) = true from rfl)] at heq
      simp only [Option.some.injEq, Prod.mk.injEq] at heq
      obtain ⟨h1, _, _, h4⟩ := heq
      rw [← h1, ← h4]
      exact linkOk_of_no_emit c lt _ now rfl
    · rw [if_neg (by simp)] at heq
      cases liy0 with
      | none => exact absurd heq (by simp)
      | some ly =>
        simp only [Option.some.injEq, Prod.mk.injEq] at heq
        obtain ⟨h1, _, _, h4⟩ := heq
        by_cases hdelta : SCROLL_MIN_DELTA < |ly - iy|
        · rw [if_pos hdelta] at h1 h4
          by_cases hf : (throttle lt ThrottleKey.scroll COOLDOWN_SCROLL now).1 = true
          · have hcd : COOLDOWN_SCROLL ≤ now - getLast lt ThrottleKey.scroll :=
              (throttle_fst_iff lt ThrottleKey.scroll COOLDOWN_SCROLL now).mp hf
            have hl7 : getLast l7 ThrottleKey.scroll = now := by
              rw [← h4]
              exact throttle_fired lt ThrottleKey.scroll COOLDOWN_SCROLL now hf
            by_cases hc : c = ThrottleKey.scroll
            · subst hc
              constructor
              · intro _
                exact ⟨hcd, hl7⟩
              · right; exact ⟨hl7, hcd⟩
            · constructor
              · intro he
                exfalso
                rw [← h1] at he
                rcases hout : ((throttle lt ThrottleKey.scroll COOLDOWN_SCROLL now).1 &&
                    !(pyInt ((ly - iy) * SCROLL_SENSITIVITY) == 0)) with _ | _
                · rw [hout] at he
                  simp [emitsCat] at he
                · rw [hout] at he
                  rw [if_pos rfl, Option.toList_some, emitsCat_singleton,
                    intentCategory] at he
                  simp at he
                  exact hc he.symm
              · left
                rw [← h4]
                exact throttle_snd_ne lt ThrottleKey.scroll COOLDOWN_SCROLL now c hc
          · have hf' : (throttle lt ThrottleKey.scroll COOLDOWN_SCROLL now).1 = false :=
              eq_false_of_ne_true hf
            rw [throttle_not_fired lt ThrottleKey.scroll COOLDOWN_SCROLL now hf'] at h4
            rw [hf'] at h1
            simp only [Bool.false_and, if_neg] at h1
            rw [← h4]
            rw [show o7 = none from by rw [← h1]; simp]
            exact linkOk_of_no_emit c lt _ now rfl
        · rw [if_neg hdelta] at h1 h4
          simp only [Bool.false_and, if_neg] at h1
          rw [← h4]
          rw [show o7 = none from by rw [← h1]; simp]
          exact linkOk_of_no_emit c lt _ now rfl
  · rw [if_neg hg] at heq
    rcases sm0 with _ | _ <;> simp only [Option.some.injEq, Prod.mk.injEq,
      if_pos, if_neg, Bool.false_eq_true, not_false_eq_true] at heq <;>
      obtain ⟨h1, _, _, h4⟩ := heq <;> rw [← h1, ← h4] <;>
      exact linkOk_of_no_emit c lt _ now rfl

lemma linkOk_pointer (c : ThrottleKey) (l : LastTimes) (x y : ℤ) (now : ℚ) :
    LinkOk c l l [Intent.pointerMove x y] now := by
  apply linkOk_of_no_emit
  simp [emitsCat, intentCategory]

lemma stepHand_linkOk (c : ThrottleKey) (s : AppState) (g : Gesture)
    (it tt : Landmark) (W H : ℕ) (now : ℚ) (s' : AppState) (out : List Intent)
    (h : stepHand s g it tt W H now = some (s', out)) :
    LinkOk c s.last_times s'.last_times out now := by
  simp only [stepHand] at h
  split at h
  · exact absurd h (by simp)
  next o7 sm liy l7 heq =>
    simp only [Option.some.injEq, Prod.mk.injEq] at h
    obtain ⟨hs, hout⟩ := h
    rw [← hs, ← hout]
    exact ((((((linkOk_pointer c s.last_times _ _ now).comp
      (linkOk_gated c _ ThrottleKey.click Intent.leftClick s.last_times now rfl)).comp
      (linkOk_gated c _ ThrottleKey.click Intent.rightClick _ now rfl)).comp
      (linkOk_gated c _ ThrottleKey.volume Intent.volumeUp _ now rfl)).comp
      (linkOk_gated c _ ThrottleKey.volume Intent.volumeDown _ now rfl)).comp
      (linkOk_gated c _ ThrottleKey.mute Intent.muteToggle _ now rfl)).comp
      (linkOk_kb c g _ now) |>.comp
      (linkOk_scroll c g s.scroll_mode s.last_index_y it.y _ now o7 sm liy l7 heq)

lemma step_linkOk (c : ThrottleKey) (s : AppState)
    (obs : Option (List Landmark)) (W H : ℕ) (now : ℚ) (s' : AppState)
    (out : List Intent) (h : step s obs W H now = some (s', out)) :
    LinkOk c s.last_times s'.last_times out now := by
  cases obs with
  | none =>
    simp only [step, Option.some.injEq, Prod.mk.injEq] at h
    obtain ⟨hs, hout⟩ := h
    rw [← hs, ← hout]
    exact linkOk_of_no_emit c s.last_times [] now rfl
  | some lm =>
    simp only [step] at h
    split at h
    · exact stepHand_linkOk c s _ _ _ W H now s' out h
    · exact absurd h (by simp)

lemma emitTimes_cons (c : ThrottleKey) (t : ℚ) (out : List Intent)
    (rest : List (ℚ × List Intent)) :
    emitTimes c ((t, out) :: rest) =
      if emitsCat c out = true then t :: emitTimes c rest else emitTimes c rest := by
  simp only [emitTimes, List.filter_cons]
  split <;> simp_all

lemma run_chain (c : ThrottleKey) (W H : ℕ) :
    ∀ (frames : List (Option (List Landmark) × ℚ)) (s sf : AppState)
      (outs : List (ℚ × List Intent)) (te : ℚ),
      run s frames W H = some (sf, outs) →
      te ≤ getLast s.last_times c →
      List.Chain' (fun a b => cooldownOf c ≤ b - a) (te :: emitTimes c outs) := by
  intro frames
  induction frames with
  | nil =>
    intro s sf outs te h hte
    simp only [run, Option.some.injEq, Prod.mk.injEq] at h
    rw [← h.2]
    simp [emitTimes]
  | cons f rest ih =>
    intro s sf outs te h hte
    obtain ⟨obs, now⟩ := f
    simp only [run] at h
    cases hstep : step s obs W H now with
    | none => rw [hstep] at h; exact absurd h (by simp)
    | some r =>
      rw [hstep] at h
      simp only [Option.bind_eq_bind, Option.some_bind] at h
      cases hrun : run r.1 rest W H with
      | none => rw [hrun] at h; exact absurd h (by simp)
      | some rr =>
        rw [hrun] at h
        simp only [Option.some_bind, Option.pure_def, Option.some.injEq,
          Prod.mk.injEq] at h
        obtain ⟨h1, h2⟩ := h
        subst h2
        have hlk := step_linkOk c s obs W H now r.1 r.2 hstep
        rw [emitTimes_cons]
        by_cases hec : emitsCat c r.2 = true
        · rw [if_pos hec]
          obtain ⟨hcd, hset⟩ := hlk.1 hec
          refine List.chain'_cons.mpr ⟨by linarith, ?_⟩
          exact ih r.1 rr.1 rr.2 now hrun (le_of_eq hset.symm)
        · rw [if_neg hec]
          rcases hlk.2 with hm | ⟨hm, hcm⟩
          · exact ih r.1 rr.1 rr.2 te hrun (by rw [hm]; exact hte)
          · have := cooldownOf_pos c
            exact ih r.1 rr.1 rr.2 te hrun (by rw [hm]; linarith)

lemma classify_eq_core (lm : List Landmark)
    (p4 p3 p8 p6 p12 p10 p16 p14 p20 p18 : Landmark)
    (h4 : lm.get? 4 = some p4) (h3 : lm.get? 3 = some p3)
    (h8 : lm.get? 8 = some p8) (h6 : lm.get? 6 = some p6)
    (h12 : lm.get? 12 = some p12) (h10 : lm.get? 10 = some p10)
    (h16 : lm.get? 16 = some p16) (h14 : lm.get? 14 = some p14)
    (h20 : lm.get? 20 = some p20) (h18 : lm.get? 18 = some p18) :
    classify lm = some (classifyCore p4 p3 p8 p6 p12 p10 p16 p14 p20 p18) := by
  simp only [classify, h4, h3, h8, h6, h12, h10, h16, h14, h20, h18,
    Option.bind_eq_bind, Option.some_bind', Option.pure_def]

lemma classify_of_length (lm : List Landmark) (h : 21 ≤ lm.length) :
    classify lm = some (classifyCore
      (lm.get ⟨4, by omega⟩) (lm.get ⟨3, by omega⟩)
      (lm.get ⟨8, by omega⟩) (lm.get ⟨6, by omega⟩)
      (lm.get ⟨12, by omega⟩) (lm.get ⟨10, by omega⟩)
      (lm.get ⟨16, by omega⟩) (lm.get ⟨14, by omega⟩)
      (lm.get ⟨20, by omega⟩) (lm.get ⟨18, by omega⟩)) :=
  classify_eq_core lm _ _ _ _ _ _ _ _ _ _
    (List.get?_eq_get (by omega)) (List.get?_eq_get (by omega))
    (List.get?_eq_get (by omega)) (List.get?_eq_get (by omega))
    (List.get?_eq_get (by omega)) (List.get?_eq_get (by omega))
    (List.get?_eq_get (by omega)) (List.get?_eq_get (by omega))
    (List.get?_eq_get (by omega)) (List.get?_eq_get (by omega))

lemma classify_none_iff (lm : List Landmark) :
    classify lm = none ↔ lm.length < 21 := by
  constructor
  · intro h
    by_contra hlen
    push_neg at hlen
    rw [classify_of_length lm hlen] at h
    cases h
  · intro hlen
    have h20 : lm.get? 20 = none := List.get?_eq_none.mpr (by omega)
    unfold classify
    cases h4 : lm.get? 4 <;>
      simp only [h4, Option.bind_eq_bind, Option.none_bind', Option.some_bind']
    cases h3 : lm.get? 3 <;>
      simp only [h3, Option.bind_eq_bind, Option.none_bind', Option.some_bind']
    cases h8 : lm.get? 8 <;>
      simp only [h8, Option.bind_eq_bind, Option.none_bind', Option.some_bind']
    cases h6 : lm.get? 6 <;>
      simp only [h6, Option.bind_eq_bind, Option.none_bind', Option.some_bind']
    cases h12 : lm.get? 12 <;>
      simp only [h12, Option.bind_eq_bind, Option.none_bind', Option.some_bind']
    cases h10 : lm.get? 10 <;>
      simp only [h10, Option.bind_eq_bind, Option.none_bind', Option.some_bind']
    cases h16 : lm.get? 16 <;>
      simp only [h16, Option.bind_eq_bind, Option.none_bind', Option.some_bind']
    cases h14 : lm.get? 14 <;>
      simp only [h14, Option.bind_eq_bind, Option.none_bind', Option.some_bind']
    rw [h20]
    simp only [Option.bind_eq_bind, Option.none_bind']

lemma classifyCore_eq_spec (p4 p3 p8 p6 p12 p10 p16 p14 p20 p18 : Landmark) :
    classifyCore p4 p3 p8 p6 p12 p10 p16 p14 p20 p18 =
      prioritySpecGesture p4 p3 p8 p6 p12 p10 p16 p14 p20 p18 := by
  by_cases ht : p4.x < p3.x <;>
    by_cases hi : p8.y < p6.y <;>
    by_cases hm : p12.y < p10.y <;>
    by_cases hr : p16.y < p14.y <;>
    by_cases hp : p20.y < p18.y <;>
    by_cases hd : euclideanSq p4 p8 < DIST_OK_THRESHOLD * DIST_OK_THRESHOLD <;>
    simp [classifyCore, prioritySpecGesture, upCountSpec, finger_up, distLt,
      ht, hi, hm, hr, hp, hd]

lemma gated_false (k : ThrottleKey) (cd : ℚ) (i : Intent) (lt : LastTimes)
    (now : ℚ) : gated false k cd i lt now = (none, lt) := rfl

lemma gated_fires (k : ThrottleKey) (cd : ℚ) (i : Intent) (lt : LastTimes)
    (now : ℚ) (hcd : cd ≤ now - getLast lt k) :
    gated true k cd i lt now = (some i, setLast lt k now) := by
  unfold gated throttle
  rw [if_pos rfl, if_pos hcd]
  simp

lemma gated_blocked (cond : Bool) (k : ThrottleKey) (cd : ℚ) (i : Intent)
    (lt : LastTimes) (now : ℚ) (hcd : ¬cd ≤ now - getLast lt k) :
    gated cond k cd i lt now = (none, lt) := by
  unfold gated throttle
  rcases cond with _ | _
  · rfl
  · rw [if_pos rfl, if_neg hcd]
    simp

lemma gated_snd_ne (cond : Bool) (k : ThrottleKey) (cd : ℚ) (i : Intent)
    (lt : LastTimes) (now : ℚ) (k' : ThrottleKey) (h : k' ≠ k) :
    getLast (gated cond k cd i lt now).2 k' = getLast lt k' := by
  rcases gated_cases cond k cd i lt now with ⟨h1, _⟩ | h1 <;> rw [h1]
  exact getLast_setLast_ne lt k k' now h

lemma kbStep_skip (g : Gesture) (lt : LastTimes) (now : ℚ)
    (hg : (g == Gesture.OK_SIGN || g == Gesture.L_SIGN || g == Gesture.PEACE) = false) :
    kbStep g lt now = (none, lt) := by
  unfold kbStep
  rw [if_neg (by rw [hg]; exact Bool.false_ne_true)]

lemma kbStep_fires (g : Gesture) (lt : LastTimes) (now : ℚ)
    (hg : (g == Gesture.OK_SIGN || g == Gesture.L_SIGN || g == Gesture.PEACE) = true)
    (hcd : COOLDOWN_MED ≤ now - getLast lt ThrottleKey.keyboard) :
    kbStep g lt now = (hotkeyFor g, setLast lt ThrottleKey.keyboard now) := by
  unfold kbStep perform_keyboard_shortcut throttle
  rw [if_pos hg, if_pos hcd]
  simp

lemma kbStep_snd_ne (g : Gesture) (lt : LastTimes) (now : ℚ) (k' : ThrottleKey)
    (h : k' ≠ ThrottleKey.keyboard) :
    getLast (kbStep g lt now).2 k' = getLast lt k' := by
  unfold kbStep perform_keyboard_shortcut
  split
  · exact throttle_snd_ne lt ThrottleKey.keyboard COOLDOWN_MED now k' h
  · rfl

lemma scrollStep_enter (liy : Option ℚ) (iy : ℚ) (lt : LastTimes) (now : ℚ) :
    scrollStep Gesture.OPEN_PALM false liy iy lt now =
      some (none, true, some iy, lt) := rfl

lemma scrollStep_exit (g : Gesture) (liy : Option ℚ) (iy : ℚ) (lt : LastTimes)
    (now : ℚ) (hg : (g == Gesture.OPEN_PALM) = false) :
    scrollStep g true liy iy lt now = some (none, false, none, lt) := by
  unfold scrollStep
  rw [if_neg (by rw [hg]; exact Bool.false_ne_true)]
  rfl

lemma scrollStep_stay_idle (g : Gesture) (liy : Option ℚ) (iy : ℚ)
    (lt : LastTimes) (now : ℚ) (hg : (g == Gesture.OPEN_PALM) = false) :
    scrollStep g false liy iy lt now = some (none, false, liy, lt) := by
  unfold scrollStep
  rw [if_neg (by rw [hg]; exact Bool.false_ne_true)]
  rfl

lemma scrollStep_scrolling (ly iy : ℚ) (lt : LastTimes) (now : ℚ) :
    scrollStep Gesture.OPEN_PALM true (some ly) iy lt now =
      some ((if ((if SCROLL_MIN_DELTA < |ly - iy| then
              throttle lt ThrottleKey.scroll COOLDOWN_SCROLL now
            else (false, lt)).1 &&
            !(pyInt ((ly - iy) * SCROLL_SENSITIVITY) == 0)) = true then
          some (Intent.scroll (pyInt ((ly - iy) * SCROLL_SENSITIVITY)))
        else none,
        true, some (ly * (85/100) + iy * (15/100)),
        (if SCROLL_MIN_DELTA < |ly - iy| then
          throttle lt ThrottleKey.scroll COOLDOWN_SCROLL now
        else (false, lt)).2)) := rfl

lemma pyInt_eq (q : ℚ) : pyInt q = if 0 ≤ q then ⌊q⌋ else ⌈q⌉ := by
  unfold pyInt
  split
  next h =>
    rw [Rat.floor_def]
    exact Int.tdiv_eq_ediv (Rat.num_nonneg.mpr h) (Int.ofNat_nonneg q.den)
  next h =>
    push_neg at h
    have hnum : q.num < 0 := Rat.num_neg.mpr h
    have h1 : ⌈q⌉ = -⌊-q⌋ := by
      rw [Int.floor_neg, neg_neg]
    rw [h1, Rat.floor_def, Rat.num_neg_eq_neg_num, Rat.den_neg_eq_den]
    rw [← Int.tdiv_eq_ediv (by omega) (Int.ofNat_nonneg q.den)]
    rw [Int.neg_tdiv, neg_neg]

lemma pstep_self (t : ℤ) : pstep t t = t := by
  unfold pstep
  rw [pyInt_eq]
  rw [show ((t : ℚ) + ((t : ℚ) - (t : ℚ)) * SMOOTHING) = (t : ℚ) by ring]
  split
  · exact Int.floor_intCast t
  · exact Int.ceil_intCast t

lemma pstep_eq_floor (p t : ℤ) (hp : 0 ≤ p) (ht : 0 ≤ t) :
    pstep p t = ⌊((3 * p + t : ℤ) : ℚ) / 4⌋ := by
  unfold pstep
  rw [pyInt_eq]
  rw [show ((p : ℚ) + ((t : ℚ) - (p : ℚ)) * SMOOTHING) =
      ((3 * p + t : ℤ) : ℚ) / 4 by push_cast [SMOOTHING]; ring]
  rw [if_pos]
  positivity

lemma pstep_nonneg (p t : ℤ) (hp : 0 ≤ p) (ht : 0 ≤ t) : 0 ≤ pstep p t := by
  rw [pstep_eq_floor p t hp ht]
  positivity

lemma pstep_dist_bounds (p t : ℤ) (hp : 0 ≤ p) (ht : 0 ≤ t) :
    3 * (t - p) ≤ 4 * (t - pstep p t) ∧ 4 * (t - pstep p t) < 3 * (t - p) + 4 := by
  rw [pstep_eq_floor p t hp ht]
  have hle : (⌊((3 * p + t : ℤ) : ℚ) / 4⌋ : ℚ) ≤ ((3 * p + t : ℤ) : ℚ) / 4 :=
    Int.floor_le _
  have hgt : ((3 * p + t : ℤ) : ℚ) / 4 - 1 < (⌊((3 * p + t : ℤ) : ℚ) / 4⌋ : ℚ) :=
    Int.sub_one_lt_floor _
  constructor
  · have : (3 * ((t : ℚ) - (p : ℚ))) ≤
        4 * ((t : ℚ) - (⌊((3 * p + t : ℤ) : ℚ) / 4⌋ : ℚ)) := by
      push_cast at hle ⊢
      linarith
    exact_mod_cast this
  · have : 4 * ((t : ℚ) - (⌊((3 * p + t : ℤ) : ℚ) / 4⌋ : ℚ)) <
        3 * ((t : ℚ) - (p : ℚ)) + 4 := by
      push_cast at hgt ⊢
      linarith
    exact_mod_cast this

lemma pstep_iter_close (t : ℤ) (ht : 0 ≤ t) :
    ∀ (n : ℕ) (p : ℤ), 0 ≤ p → (t - p).natAbs ≤ 3 + n →
      (t - (fun x => pstep x t)^[n] p).natAbs ≤ 3 := by
  intro n
  induction n with
  | zero =>
    intro p hp hd
    simpa using hd
  | succ k ih =>
    intro p hp hd
    rw [Function.iterate_succ_apply]
    refine ih (pstep p t) (pstep_nonneg p t hp ht) ?_
    have hb := pstep_dist_bounds p t hp ht
    omega

lemma classifyCore_open_palm (p4 p3 p8 p6 p12 p10 p16 p14 p20 p18 : Landmark)
    (hcount : upCountSpec p8 p6 p12 p10 p16 p14 p20 p18 = 4)
    (hthumb : p4.x < p3.x) :
    classifyCore p4 p3 p8 p6 p12 p10 p16 p14 p20 p18 = Gesture.OPEN_PALM := by
  rw [classifyCore_eq_spec]
  unfold prioritySpecGesture
  rw [if_pos ⟨hcount, hthumb⟩]

/-- C1: for every 21-landmark input, `classify` returns the label of the
first matching rule of the fixed priority list (OpenPalm, OkSign, Peace,
Rock, LSign, ThumbsUp, Fist, otherwise Unknown); in particular an input
satisfying both the OpenPalm and the Peace raw conditions classifies as
OpenPalm, never Peace. -/
theorem c1_priority_order (lm : List Landmark) (h : lm.length = 21) :
    classify lm = some (prioritySpecGesture
      (lm.get ⟨4, by omega⟩) (lm.get ⟨3, by omega⟩)
      (lm.get ⟨8, by omega⟩) (lm.get ⟨6, by omega⟩)
      (lm.get ⟨12, by omega⟩) (lm.get ⟨10, by omega⟩)
      (lm.get ⟨16, by omega⟩) (lm.get ⟨14, by omega⟩)
      (lm.get ⟨20, by omega⟩) (lm.get ⟨18, by omega⟩)) ∧
    ((upCountSpec (lm.get ⟨8, by omega⟩) (lm.get ⟨6, by omega⟩)
        (lm.get ⟨12, by omega⟩) (lm.get ⟨10, by omega⟩)
        (lm.get ⟨16, by omega⟩) (lm.get ⟨14, by omega⟩)
        (lm.get ⟨20, by omega⟩) (lm.get ⟨18, by omega⟩) = 4 ∧
       (lm.get ⟨4, by omega⟩).x < (lm.get ⟨3, by omega⟩).x) →
      ((lm.get ⟨8, by omega⟩).y < (lm.get ⟨6, by omega⟩).y ∧
        (lm.get ⟨12, by omega⟩).y < (lm.get ⟨10, by omega⟩).y ∧
        ¬((lm.get ⟨16, by omega⟩).y < (lm.get ⟨14, by omega⟩).y) ∧
        ¬((lm.get ⟨20, by omega⟩).y < (lm.get ⟨18, by omega⟩).y)) →
      classify lm = some Gesture.OPEN_PALM) := by
  constructor
  · rw [classify_of_length lm (by omega)]
    exact congrArg some (classifyCore_eq_spec _ _ _ _ _ _ _ _ _ _)
  · intro hop _
    rw [classify_of_length lm (by omega)]
    exact congrArg some (classifyCore_open_palm _ _ _ _ _ _ _ _ _ _ hop.1 hop.2)

theorem c1_priority_order_witness :
    classify openPalmLm = some Gesture.OPEN_PALM := by
  have h := (c1_priority_order openPalmLm (by decide)).1
  rw [h]
  decide

/-- C4 counterexample: a landmark collection with 22 entries (not 21) is
not signaled as an error; it is silently classified as a normal gesture. -/
theorem c4_wrong_count_counterexample :
    (List.replicate 22 (⟨0, 0⟩ : Landmark)).length ≠ 21 ∧
    classify (List.replicate 22 (⟨0, 0⟩ : Landmark)) = some Gesture.OK_SIGN := by
  constructor
  · decide
  · decide

/-- C4 amended: `classify` fails (Python `IndexError`) exactly when the
landmark list has fewer than 21 entries; a list with 21 or more entries
is silently classified, using only its first 21 landmarks. -/
theorem c4_amended_wrong_count (lm : List Landmark) :
    (classify lm = none ↔ lm.length < 21) ∧
    classify lm = classify (lm.take 21) := by
  constructor
  · exact classify_none_iff lm
  · unfold classify
    simp only [List.get?_take (show (4:ℕ) < 21 by norm_num),
      List.get?_take (show (3:ℕ) < 21 by norm_num),
      List.get?_take (show (8:ℕ) < 21 by norm_num),
      List.get?_take (show (6:ℕ) < 21 by norm_num),
      List.get?_take (show (12:ℕ) < 21 by norm_num),
      List.get?_take (show (10:ℕ) < 21 by norm_num),
      List.get?_take (show (16:ℕ) < 21 by norm_num),
      List.get?_take (show (14:ℕ) < 21 by norm_num),
      List.get?_take (show (20:ℕ) < 21 by norm_num),
      List.get?_take (show (18:ℕ) < 21 by norm_num)]

theorem c4_amended_witness :
    classify (List.replicate 20 (⟨0, 0⟩ : Landmark)) = none :=
  (c4_amended_wrong_count (List.replicate 20 ⟨0, 0⟩)).1.mpr (by decide)

/-- C8: `classify` is deterministic and total on 21-landmark inputs: it
always returns exactly one of the eight gesture labels without failing,
and identical inputs give identical outputs. -/
theorem c8_total_deterministic (lm : List Landmark) (h : lm.length = 21) :
    (∃ g, classify lm = some g ∧
      (g = Gesture.OPEN_PALM ∨ g = Gesture.OK_SIGN ∨ g = Gesture.PEACE ∨
       g = Gesture.ROCK ∨ g = Gesture.L_SIGN ∨ g = Gesture.THUMBS_UP ∨
       g = Gesture.FIST ∨ g = Gesture.UNKNOWN)) ∧
    (∀ lm2, lm2 = lm → classify lm2 = classify lm) := by
  constructor
  · refine ⟨_, classify_of_length lm (by omega), ?_⟩
    generalize (classifyCore (lm.get ⟨4, by omega⟩) (lm.get ⟨3, by omega⟩)
      (lm.get ⟨8, by omega⟩) (lm.get ⟨6, by omega⟩)
      (lm.get ⟨12, by omega⟩) (lm.get ⟨10, by omega⟩)
      (lm.get ⟨16, by omega⟩) (lm.get ⟨14, by omega⟩)
      (lm.get ⟨20, by omega⟩) (lm.get ⟨18, by omega⟩)) = g
    cases g <;> simp
  · intro lm2 h2
    rw [h2]

theorem c8_total_deterministic_witness :
    (∃ g, classify (List.replicate 21 (⟨0, 0⟩ : Landmark)) = some g ∧
      (g = Gesture.OPEN_PALM ∨ g = Gesture.OK_SIGN ∨ g = Gesture.PEACE ∨
       g = Gesture.ROCK ∨ g = Gesture.L_SIGN ∨ g = Gesture.THUMBS_UP ∨
       g = Gesture.FIST ∨ g = Gesture.UNKNOWN)) ∧
    (∀ lm2, lm2 = List.replicate 21 (⟨0, 0⟩ : Landmark) →
      classify lm2 = classify (List.replicate 21 (⟨0, 0⟩ : Landmark))) :=
  c8_total_deterministic (List.replicate 21 ⟨0, 0⟩) (by decide)

/-- C9: `classify` depends only on the landmarks at indices
3, 4, 6, 8, 10, 12, 14, 16, 18 and 20. -/
theorem c9_used_indices (lm1 lm2 : List Landmark)
    (h1 : lm1.length = 21) (h2 : lm2.length = 21)
    (hag : ∀ i ∈ ([3, 4, 6, 8, 10, 12, 14, 16, 18, 20] : List ℕ),
      lm1.get? i = lm2.get? i) :
    classify lm1 = classify lm2 := by
  unfold classify
  simp only [hag 4 (by simp), hag 3 (by simp), hag 8 (by simp),
    hag 6 (by simp), hag 12 (by simp), hag 10 (by simp), hag 16 (by simp),
    hag 14 (by simp), hag 20 (by simp), hag 18 (by simp)]

theorem c9_used_indices_witness :
    classify (List.replicate 21 (⟨0, 0⟩ : Landmark)) =
      classify ((⟨1, 1⟩ : Landmark) :: List.replicate 20 ⟨0, 0⟩) :=
  c9_used_indices _ _ (by decide) (by decide) (by decide)

lemma getLast_init (c : ThrottleKey) : getLast initState.last_times c = 0 := by
  cases c <;> rfl

lemma run_pairwise (c : ThrottleKey) (W H : ℕ)
    (frames : List (Option (List Landmark) × ℚ)) (sf : AppState)
    (outs : List (ℚ × List Intent))
    (h : run initState frames W H = some (sf, outs)) :
    List.Pairwise (fun a b => cooldownOf c ≤ b - a) (emitTimes c outs) := by
  have h0 : (0 : ℚ) ≤ getLast initState.last_times c :=
    le_of_eq (getLast_init c).symm
  have hchain := (run_chain c W H frames initState sf outs 0 h h0).tail
  haveI : IsTrans ℚ (fun a b => cooldownOf c ≤ b - a) :=
    ⟨fun a b d hab hbd => by
      have := cooldownOf_pos c
      linarith⟩
  exact List.chain'_iff_pairwise.mp hchain

lemma emitsClick_eq (out : List Intent) :
    emitsClick out = emitsCat ThrottleKey.click out := by
  unfold emitsClick emitsCat
  congr 1
  funext i
  cases i <;> rfl

lemma clickTimes_eq (frames : List (ℚ × List Intent)) :
    clickTimes frames = emitTimes ThrottleKey.click frames := by
  unfold clickTimes emitTimes
  congr 1
  apply List.filter_congr
  intro p _
  rw [emitsClick_eq]

/-- C2: per-category rate limiting: `_throttle` fires exactly when
`now - last_times[key] >= cooldown`; on firing it sets
`last_times[key] := now`; it never touches any other category's clock;
and over any run from the initial state, two intents of the same category
are never emitted with timestamps closer together than that category's
cooldown. -/
theorem c2_cooldown_rate_limit :
    (∀ (lt : LastTimes) (k : ThrottleKey) (cd now : ℚ),
      ((throttle lt k cd now).1 = true ↔ cd ≤ now - getLast lt k)) ∧
    (∀ (lt : LastTimes) (k : ThrottleKey) (cd now : ℚ),
      (throttle lt k cd now).1 = true →
        getLast (throttle lt k cd now).2 k = now) ∧
    (∀ (lt : LastTimes) (k : ThrottleKey) (cd now : ℚ) (k' : ThrottleKey),
      k' ≠ k → getLast (throttle lt k cd now).2 k' = getLast lt k') ∧
    (∀ (c : ThrottleKey) (W H : ℕ)
      (frames : List (Option (List Landmark) × ℚ)) (sf : AppState)
      (outs : List (ℚ × List Intent)),
      run initState frames W H = some (sf, outs) →
      List.Pairwise (fun a b => cooldownOf c ≤ b - a) (emitTimes c outs)) :=
  ⟨throttle_fst_iff, throttle_fired, fun lt k cd now k' h =>
    throttle_snd_ne lt k cd now k' h,
   fun c W H frames sf outs h => run_pairwise c W H frames sf outs h⟩

theorem c2_cooldown_rate_limit_witness :
    (throttle initState.last_times ThrottleKey.click COOLDOWN_MED 1).1 = true ∧
    getLast (throttle initState.last_times ThrottleKey.click COOLDOWN_MED 1).2
      ThrottleKey.click = 1 ∧
    getLast (throttle initState.last_times ThrottleKey.click COOLDOWN_MED 1).2
      ThrottleKey.volume = getLast initState.last_times ThrottleKey.volume ∧
    List.Pairwise (fun a b => cooldownOf ThrottleKey.click ≤ b - a)
      (emitTimes ThrottleKey.click twoPinchOuts) :=
  ⟨(c2_cooldown_rate_limit.1 _ _ _ _).mpr (by decide),
   c2_cooldown_rate_limit.2.1 _ _ _ _
     ((c2_cooldown_rate_limit.1 _ _ _ _).mpr (by decide)),
   c2_cooldown_rate_limit.2.2.1 _ _ _ _ _ (by decide),
   c2_cooldown_rate_limit.2.2.2 ThrottleKey.click 100 100 twoPinchTrace
     twoPinchSf twoPinchOuts (by decide)⟩

/-- C5: left click (pinch) and right click (LSign) share the single
`click` cooldown category: over any run from the initial state, no two
(left or right) click intents are ever emitted with timestamps closer
together than `COOLDOWN_MED`. -/
theorem c5_shared_click_cooldown (W H : ℕ)
    (frames : List (Option (List Landmark) × ℚ)) (sf : AppState)
    (outs : List (ℚ × List Intent))
    (h : run initState frames W H = some (sf, outs)) :
    List.Pairwise (fun a b => COOLDOWN_MED ≤ b - a) (clickTimes outs) := by
  rw [clickTimes_eq]
  have hp := run_pairwise ThrottleKey.click W H frames sf outs h
  simpa only [show cooldownOf ThrottleKey.click = COOLDOWN_MED from rfl] using hp

theorem c5_shared_click_cooldown_witness :
    run initState twoPinchTrace 100 100 = some (twoPinchSf, twoPinchOuts) ∧
    List.Pairwise (fun a b => COOLDOWN_MED ≤ b - a) (clickTimes twoPinchOuts) :=
  ⟨by decide,
   c5_shared_click_cooldown 100 100 twoPinchTrace twoPinchSf twoPinchOuts
     (by decide)⟩

lemma step_eq_stepHand (s : AppState) (lm : List Landmark) (W H : ℕ)
    (now : ℚ) (g : Gesture) (it tt : Landmark) (hg : classify lm = some g)
    (h8 : lm.get? 8 = some it) (h4 : lm.get? 4 = some tt) :
    step s (some lm) W H now = stepHand s g it tt W H now := by
  simp only [step, hg, h8, h4]

lemma scrollStep_not_open (g : Gesture) (sm0 : Bool) (liy : Option ℚ)
    (iy : ℚ) (lt : LastTimes) (now : ℚ)
    (hg : (g == Gesture.OPEN_PALM) = false) :
    scrollStep g sm0 liy iy lt now =
      some (none, false, if sm0 then none else liy, lt) := by
  rcases sm0 with _ | _
  · rw [scrollStep_stay_idle g liy iy lt now hg, if_neg (by simp)]
  · rw [scrollStep_exit g liy iy lt now hg, if_pos rfl]

/-- C3 counterexample: on a frame with no observed hand, the scroll state
machine does NOT exit to `Idle` and `scroll_baseline_y` is NOT cleared:
the whole landmark block (its scroll-exit branch included) is skipped, so
the state is returned untouched. -/
theorem c3_nohand_counterexample :
    step scrollingState none 100 100 0 = some (scrollingState, []) ∧
    scrollingState.scroll_mode = true ∧
    scrollingState.last_index_y = some (1/2) :=
  ⟨rfl, rfl, rfl⟩

/-- C3 amended: a NoHand frame leaves the dispatcher state (scroll mode
and baseline included) completely untouched and produces no intents; the
exit-to-Idle transition that clears the baseline happens only on frames
with an observed hand whose gesture is not OpenPalm. -/
theorem c3_amended_nohand (s : AppState) (W H : ℕ) (now : ℚ) :
    step s none W H now = some (s, []) ∧
    (∀ (lm : List Landmark) (g : Gesture) (it tt : Landmark) (s' : AppState)
      (out : List Intent),
      classify lm = some g → lm.get? 8 = some it → lm.get? 4 = some tt →
      (g == Gesture.OPEN_PALM) = false →
      step s (some lm) W H now = some (s', out) →
      s'.scroll_mode = false ∧
      (s.scroll_mode = true → s'.last_index_y = none)) := by
  constructor
  · rfl
  · intro lm g it tt s' out hg h8 h4 hnot hstep
    rw [step_eq_stepHand s lm W H now g it tt hg h8 h4] at hstep
    simp only [stepHand] at hstep
    rw [scrollStep_not_open g s.scroll_mode s.last_index_y it.y _ now hnot]
      at hstep
    simp only [Option.some.injEq, Prod.mk.injEq] at hstep
    obtain ⟨hs, _⟩ := hstep
    rw [← hs]
    refine ⟨rfl, fun hsm => ?_⟩
    simp only [hsm, if_true]

theorem c3_amended_nohand_witness :
    step scrollingState none 100 100 5 = some (scrollingState, []) :=
  (c3_amended_nohand scrollingState 100 100 5).1

lemma prioritySpec_ok_dist (p4 p3 p8 p6 p12 p10 p16 p14 p20 p18 : Landmark)
    (h : prioritySpecGesture p4 p3 p8 p6 p12 p10 p16 p14 p20 p18 =
      Gesture.OK_SIGN) :
    euclideanSq p4 p8 < DIST_OK_THRESHOLD * DIST_OK_THRESHOLD := by
  unfold prioritySpecGesture at h
  split_ifs at h with h1 h2 h3 h4 h5 h6 h7
  exact h2

lemma distLt_ok_pinch (p q : Landmark)
    (h : distLt p q DIST_OK_THRESHOLD = true) :
    distLt p q PINCH_THRESHOLD = true := by
  unfold distLt at h ⊢
  rw [decide_eq_true_eq] at h
  rw [decide_eq_true_eq]
  have hlt : DIST_OK_THRESHOLD * DIST_OK_THRESHOLD <
      PINCH_THRESHOLD * PINCH_THRESHOLD := by
    norm_num [DIST_OK_THRESHOLD, PINCH_THRESHOLD]
  linarith

lemma classify_some_length (lm : List Landmark) (g : Gesture)
    (h : classify lm = some g) : 21 ≤ lm.length := by
  by_contra hlen
  push_neg at hlen
  rw [(classify_none_iff lm).mpr hlen] at h
  cases h

/-- C10: an observed frame classified `OK_SIGN` always satisfies the
pinch condition (`OK_THRESHOLD < PINCH_THRESHOLD`); hence when the click
and keyboard cooldowns both allow, the frame emits a left click and the
Copy shortcut in the same step. -/
theorem c10_ok_sign_click_and_copy (s : AppState) (lm : List Landmark)
    (it tt : Landmark) (W H : ℕ) (now : ℚ) (s' : AppState)
    (out : List Intent)
    (hg : classify lm = some Gesture.OK_SIGN)
    (h8 : lm.get? 8 = some it) (h4 : lm.get? 4 = some tt)
    (hstep : step s (some lm) W H now = some (s', out))
    (hclick : COOLDOWN_MED ≤ now - getLast s.last_times ThrottleKey.click)
    (hkb : COOLDOWN_MED ≤ now - getLast s.last_times ThrottleKey.keyboard) :
    distLt tt it PINCH_THRESHOLD = true ∧
    Intent.leftClick ∈ out ∧ Intent.hotkeyCopy ∈ out := by
  have hlen : 21 ≤ lm.length := classify_some_length lm Gesture.OK_SIGN hg
  have htt : lm.get ⟨4, by omega⟩ = tt := by
    have := List.get?_eq_get (show 4 < lm.length by omega) (l := lm)
    rw [this] at h4
    exact Option.some.inj h4
  have hit : lm.get ⟨8, by omega⟩ = it := by
    have := List.get?_eq_get (show 8 < lm.length by omega) (l := lm)
    rw [this] at h8
    exact Option.some.inj h8
  have hcore : classifyCore (lm.get ⟨4, by omega⟩) (lm.get ⟨3, by omega⟩)
      (lm.get ⟨8, by omega⟩) (lm.get ⟨6, by omega⟩)
      (lm.get ⟨12, by omega⟩) (lm.get ⟨10, by omega⟩)
      (lm.get ⟨16, by omega⟩) (lm.get ⟨14, by omega⟩)
      (lm.get ⟨20, by omega⟩) (lm.get ⟨18, by omega⟩) = Gesture.OK_SIGN := by
    have := classify_of_length lm hlen
    rw [hg] at this
    exact (Option.some.inj this).symm
  have hokd : distLt tt it DIST_OK_THRESHOLD = true := by
    have hsp := hcore
    rw [classifyCore_eq_spec] at hsp
    have hd := prioritySpec_ok_dist _ _ _ _ _ _ _ _ _ _ hsp
    rw [htt, hit] at hd
    unfold distLt
    exact decide_eq_true hd
  have hpinch : distLt tt it PINCH_THRESHOLD = true := distLt_ok_pinch tt it hokd
  refine ⟨hpinch, ?_⟩
  rw [step_eq_stepHand s lm W H now Gesture.OK_SIGN it tt hg h8 h4] at hstep
  simp only [stepHand, hpinch,
    show (Gesture.OK_SIGN == Gesture.L_SIGN) = false from rfl,
    show (Gesture.OK_SIGN == Gesture.THUMBS_UP) = false from rfl,
    show (Gesture.OK_SIGN == Gesture.FIST) = false from rfl,
    show (Gesture.OK_SIGN == Gesture.ROCK) = false from rfl,
    gated_false, gated_fires ThrottleKey.click COOLDOWN_MED Intent.leftClick
      s.last_times now hclick] at hstep
  rw [kbStep_fires Gesture.OK_SIGN _ now rfl (by
    rw [getLast_setLast_ne _ _ _ _ (by decide)]
    exact hkb)] at hstep
  rw [scrollStep_not_open Gesture.OK_SIGN s.scroll_mode s.last_index_y it.y
    _ now rfl] at hstep
  simp only [Option.some.injEq, Prod.mk.injEq] at hstep
  obtain ⟨_, hout⟩ := hstep
  rw [← hout]
  simp [hotkeyFor]

theorem c10_ok_sign_click_and_copy_witness :
    distLt (⟨0, 0⟩ : Landmark) (⟨0, 0⟩ : Landmark) PINCH_THRESHOLD = true ∧
    Intent.leftClick ∈
      [Intent.pointerMove 0 0, Intent.leftClick, Intent.hotkeyCopy] ∧
    Intent.hotkeyCopy ∈
      [Intent.pointerMove 0 0, Intent.leftClick, Intent.hotkeyCopy] :=
  c10_ok_sign_click_and_copy initState pinchLm ⟨0, 0⟩ ⟨0, 0⟩ 100 100 1
    twoPinchSf [Intent.pointerMove 0 0, Intent.leftClick, Intent.hotkeyCopy]
    (by decide) (by decide)
    (by decide) (by decide)
    (by decide) (by decide)

lemma scroll_emit_core (ly iy : ℚ) (lt : LastTimes) (now : ℚ)
    (o7 : Option Intent) (sm : Bool) (liy : Option ℚ) (l7 : LastTimes)
    (heq : scrollStep Gesture.OPEN_PALM true (some ly) iy lt now =
      some (o7, sm, liy, l7)) :
    (SCROLL_MIN_DELTA < |ly - iy| →
      COOLDOWN_SCROLL ≤ now - getLast lt ThrottleKey.scroll →
      pyInt ((ly - iy) * SCROLL_SENSITIVITY) ≠ 0 →
      o7 = some (Intent.scroll (pyInt ((ly - iy) * SCROLL_SENSITIVITY)))) ∧
    (∀ i, o7 = some i →
      i = Intent.scroll (pyInt ((ly - iy) * SCROLL_SENSITIVITY)) ∧
      pyInt ((ly - iy) * SCROLL_SENSITIVITY) ≠ 0) ∧
    liy = some (ly * (85/100) + iy * (15/100)) := by
  rw [scrollStep_scrolling] at heq
  simp only [Option.some.injEq, Prod.mk.injEq] at heq
  obtain ⟨ho, _, hliy, _⟩ := heq
  refine ⟨?_, ?_, hliy.symm⟩
  · intro hdelta hcd hamount
    rw [← ho, if_pos]
    rw [if_pos hdelta]
    have hf : (throttle lt ThrottleKey.scroll COOLDOWN_SCROLL now).1 = true :=
      (throttle_fst_iff lt ThrottleKey.scroll COOLDOWN_SCROLL now).mpr hcd
    rw [hf]
    simp [hamount]
  · intro i hi
    rw [← ho] at hi
    by_cases hcond : ((if SCROLL_MIN_DELTA < |ly - iy| then
        throttle lt ThrottleKey.scroll COOLDOWN_SCROLL now
      else (false, lt)).1 &&
        !(pyInt ((ly - iy) * SCROLL_SENSITIVITY) == 0)) = true
    · rw [if_pos hcond] at hi
      have hnz : pyInt ((ly - iy) * SCROLL_SENSITIVITY) ≠ 0 := by
        have := (Bool.and_eq_true _ _).mp hcond
        simpa using this.2
      exact ⟨(Option.some.inj hi).symm, hnz⟩
    · rw [if_neg hcond] at hi
      cases hi

/-- C6 amended: in the Scrolling state with gesture OpenPalm, with
`dy = scroll_baseline_y - index_tip.y`: if `|dy| > SCROLL_MIN_DELTA`, the
scroll cooldown allows and `int(dy * SCROLL_SENSITIVITY)` (truncation
toward zero, not `round`) is nonzero, a scroll intent with exactly that
truncated magnitude is emitted; any emitted scroll intent carries that
magnitude and only when it is nonzero; and the baseline is updated to
`0.85 * baseline + 0.15 * index_tip.y` on every such frame. -/
theorem c6_amended_scroll (s : AppState) (lm : List Landmark)
    (it tt : Landmark) (ly : ℚ) (W H : ℕ) (now : ℚ) (s' : AppState)
    (out : List Intent)
    (hg : classify lm = some Gesture.OPEN_PALM)
    (h8 : lm.get? 8 = some it) (h4 : lm.get? 4 = some tt)
    (hsm : s.scroll_mode = true) (hliy : s.last_index_y = some ly)
    (hstep : step s (some lm) W H now = some (s', out)) :
    (SCROLL_MIN_DELTA < |ly - it.y| →
      COOLDOWN_SCROLL ≤ now - getLast s.last_times ThrottleKey.scroll →
      pyInt ((ly - it.y) * SCROLL_SENSITIVITY) ≠ 0 →
      Intent.scroll (pyInt ((ly - it.y) * SCROLL_SENSITIVITY)) ∈ out) ∧
    (∀ a : ℤ, Intent.scroll a ∈ out →
      a = pyInt ((ly - it.y) * SCROLL_SENSITIVITY) ∧ a ≠ 0) ∧
    s'.last_index_y = some (ly * (85/100) + it.y * (15/100)) := by
  rw [step_eq_stepHand s lm W H now Gesture.OPEN_PALM it tt hg h8 h4] at hstep
  simp only [stepHand,
    show (Gesture.OPEN_PALM == Gesture.L_SIGN) = false from rfl,
    show (Gesture.OPEN_PALM == Gesture.THUMBS_UP) = false from rfl,
    show (Gesture.OPEN_PALM == Gesture.FIST) = false from rfl,
    show (Gesture.OPEN_PALM == Gesture.ROCK) = false from rfl,
    gated_false, Option.toList_none, List.append_nil, List.nil_append]
    at hstep
  rw [kbStep_skip Gesture.OPEN_PALM _ now rfl] at hstep
  rw [hsm, hliy] at hstep
  split at hstep
  · exact absurd hstep (by simp)
  next o7 sm liy' l7 heq =>
    simp only [Option.some.injEq, Prod.mk.injEq, Option.toList_none,
      List.append_nil] at hstep
    obtain ⟨hs, hout⟩ := hstep
    have hscroll_last : getLast ((gated (distLt tt it PINCH_THRESHOLD)
        ThrottleKey.click COOLDOWN_MED Intent.leftClick s.last_times now).2)
        ThrottleKey.scroll = getLast s.last_times ThrottleKey.scroll :=
      gated_snd_ne _ _ _ _ _ _ _ (by decide)
    have hcore := scroll_emit_core ly it.y _ now o7 sm liy' l7 heq
    refine ⟨?_, ?_, ?_⟩
    · intro hdelta hcd hnz
      have ho7 := hcore.1 hdelta (by rw [hscroll_last]; exact hcd) hnz
      rw [← hout, ho7]
      simp
    · intro a ha
      rw [← hout] at ha
      simp only [List.mem_append, List.mem_cons, List.not_mem_nil,
        or_false, false_or, List.mem_singleton] at ha
      rcases ha with ha | ha
      · rcases ha with ha | ha
        · cases ha
        · have h1 : (gated (distLt tt it PINCH_THRESHOLD) ThrottleKey.click
              COOLDOWN_MED Intent.leftClick s.last_times now).1 =
              some (Intent.scroll a) :=
            Option.mem_def.mp (Option.mem_toList.mp ha)
          have := gated_emit _ _ _ _ _ _ _ h1
          cases this
      · have h7 : o7 = some (Intent.scroll a) :=
          Option.mem_def.mp (Option.mem_toList.mp ha)
        obtain ⟨hi, hnz⟩ := hcore.2.1 _ h7
        have he := Intent.scroll.inj hi
        exact ⟨he, by rw [he]; exact hnz⟩
    · rw [← hs]
      exact hcore.2.2

set_option maxRecDepth 20000 in
/-- C6 counterexample: with `dy = 0.0041`, `dy * SCROLL_SENSITIVITY =
3.69`; the code emits `int(3.69) = 3` (truncation), while the claim's
`round(3.69) = 4`. -/
theorem c6_round_counterexample :
    step scrollingState (some c6Lm) 100 100 1 =
      some ({ prev_mouse := some (50, 49),
              last_times :=
                { volume := 0, mute := 0, click := 0, keyboard := 0, scroll := 1 },
              scroll_mode := true,
              last_index_y := some (99877/200000) },
        [Intent.pointerMove 50 49, Intent.scroll 3]) ∧
    round ((1/2 - 4959/10000 : ℚ) * SCROLL_SENSITIVITY) = 4 := by
  constructor
  · decide
  · decide

set_option maxRecDepth 20000 in
theorem c6_amended_scroll_witness :
    Intent.scroll (pyInt ((1/2 - 4959/10000) * SCROLL_SENSITIVITY)) ∈
      [Intent.pointerMove 50 49, Intent.scroll 3] :=
  (c6_amended_scroll scrollingState c6Lm ⟨5/10, 4959/10000⟩ ⟨1/10, 5/10⟩
    (1/2) 100 100 1
    { prev_mouse := some (50, 49),
      last_times :=
        { volume := 0, mute := 0, click := 0, keyboard := 0, scroll := 1 },
      scroll_mode := true,
      last_index_y := some (99877/200000) }
    [Intent.pointerMove 50 49, Intent.scroll 3]
    (by decide) (by decide)
    (by decide) rfl rfl
    (by decide)).1
    (by decide) (by decide)
    (by decide)

/-- C7 counterexample: with smoothed position `0` and target `3`, the
claim's update `smoothed + (target - smoothed) * SMOOTHING` gives `0.75`,
but the code emits `int(0.75) = 0` and stores `0`: the smoothed position
never moves, so it does not come within an arbitrarily small epsilon of
the target. -/
theorem c7_truncation_counterexample :
    step c7s (some c7Lm) 100 100 0 = some (c7sNext, [Intent.pointerMove 0 0]) ∧
    pyInt ((3/100 : ℚ) * 100) = 3 ∧
    (0 : ℚ) + ((3 : ℚ) - 0) * SMOOTHING ≠ 0 := by
  refine ⟨by decide, by decide, by norm_num [SMOOTHING]⟩

/-- C7 amended: on the first observed frame the smoothed position is
initialized to the integer target `int(index_tip * screen)` and emitted
as-is; on later frames the update is
`smoothed := int(smoothed + (target - smoothed) * SMOOTHING)` (truncating
toward zero, `pstep`); feeding a constant nonnegative target repeatedly
drives the smoothed position to within 3 pixels of the target (not within
an arbitrarily small epsilon). -/
theorem c7_amended_pointer :
    (∀ (s : AppState) (lm : List Landmark) (g : Gesture) (it tt : Landmark)
      (W H : ℕ) (now : ℚ) (s' : AppState) (out : List Intent),
      classify lm = some g → lm.get? 8 = some it → lm.get? 4 = some tt →
      step s (some lm) W H now = some (s', out) →
      (s.prev_mouse = none →
        s'.prev_mouse = some (pyInt (it.x * W), pyInt (it.y * H)) ∧
        Intent.pointerMove (pyInt (it.x * W)) (pyInt (it.y * H)) ∈ out) ∧
      (∀ px py : ℤ, s.prev_mouse = some (px, py) →
        s'.prev_mouse = some (pstep px (pyInt (it.x * W)),
          pstep py (pyInt (it.y * H))) ∧
        Intent.pointerMove (pstep px (pyInt (it.x * W)))
          (pstep py (pyInt (it.y * H))) ∈ out)) ∧
    (∀ t p0 : ℤ, 0 ≤ t → 0 ≤ p0 → ∀ n : ℕ, (t - p0).natAbs ≤ n →
      |t - (fun p => pstep p t)^[n] p0| ≤ 3) := by
  constructor
  · intro s lm g it tt W H now s' out hg h8 h4 hstep
    rw [step_eq_stepHand s lm W H now g it tt hg h8 h4] at hstep
    simp only [stepHand] at hstep
    split at hstep
    · exact absurd hstep (by simp)
    next o7 sm liy l7 heq =>
      simp only [Option.some.injEq, Prod.mk.injEq] at hstep
      obtain ⟨hs, hout⟩ := hstep
      constructor
      · intro hnone
        rw [hnone] at hs hout
        simp only [Option.getD_none] at hs hout
        rw [pstep_self, pstep_self] at hs hout
        refine ⟨by rw [← hs], ?_⟩
        rw [← hout]
        simp
      · intro px py hsome
        rw [hsome] at hs hout
        simp only [Option.getD_some] at hs hout
        refine ⟨by rw [← hs], ?_⟩
        rw [← hout]
        simp
  · intro t p0 ht hp n hn
    have h := pstep_iter_close t ht n p0 hp (by omega)
    rw [Int.abs_eq_natAbs]
    exact_mod_cast h

theorem c7_amended_pointer_witness :
    (c7sNext.prev_mouse =
      some (pstep 0 (pyInt ((3/100 : ℚ) * (100 : ℕ))),
        pstep 0 (pyInt ((0 : ℚ) * (100 : ℕ)))) ∧
     Intent.pointerMove (pstep 0 (pyInt ((3/100 : ℚ) * (100 : ℕ))))
       (pstep 0 (pyInt ((0 : ℚ) * (100 : ℕ)))) ∈ [Intent.pointerMove 0 0]) ∧
    |(5 : ℤ) - (fun p => pstep p 5)^[5] 0| ≤ 3 :=
  ⟨(c7_amended_pointer.1 c7s c7Lm Gesture.OK_SIGN ⟨3/100, 0⟩ ⟨3/100, 0⟩
      100 100 0 c7sNext [Intent.pointerMove 0 0] (by decide) (by decide)
      (by decide) (by decide)).2 0 0 rfl,
   c7_amended_pointer.2 5 0 (by decide) (by decide) 5 (by decide)⟩
